import Mathlib

/-!
Shallow embedding of `src/youtube-8m-zhangteng/train_autoencoder.py`,
the distributed-training orchestration binary for the YouTube-8M
autoencoder model. Each definition mirrors one function, method or
statement block of the Python source; theorems settle the specification
claims about them.
-/

namespace TrainAutoencoder

/-! ## TaskSpec and Trainer construction (source lines 344-361)

`main` builds a task object with a `type` string and an integer `index`
(defaulting to `{"type": "master", "index": 0}`).  `Trainer.__init__`
computes `is_master = (task.type == "master" and task.index == 0)` and
then raises `StandardError` when `is_master and task.index > 0`. -/

structure TaskSpec where
  type : String
  index : Int
deriving DecidableEq, Repr

/-- Source line 355: `self.is_master = (task.type == "master" and task.index == 0)`. -/
def trainer_is_master (task : TaskSpec) : Bool :=
  task.type == "master" && task.index == 0

/-- Source lines 359-361: the `Trainer.__init__` guard
`if self.is_master and self.task.index > 0: raise StandardError(...)`.
Returns `true` exactly when construction raises. -/
def trainer_init_raises (task : TaskSpec) : Bool :=
  trainer_is_master task && decide (0 < task.index)

/-! ## Checkpoint / recovery decision (source lines 485-503)

`Trainer.get_meta_filename` inspects the fresh-start flag, the latest
checkpoint pointer in the training directory, and the presence of the
checkpoint's `.meta` graph-snapshot file.  `none` means FRESH (build a
new model); `some m` means RECOVER from meta graph file `m`.
The filesystem is abstracted by `latest_checkpoint` (result of
`tf.train.latest_checkpoint`) and `file_exists` (`gfile.Exists`). -/

def get_meta_filename (start_new_model : Bool) (latest_checkpoint : Option String)
    (file_exists : String → Bool) : Option String :=
  if start_new_model then
    none
  else
    match latest_checkpoint with
    | none => none
    | some ckpt =>
      let meta_filename := ckpt ++ ".meta"
      if !(file_exists meta_filename) then none else some meta_filename

/-! ## Training-directory removal (source lines 369-370 and 472-483)

`Trainer.run` begins with
`if self.is_master and start_new_model: self.remove_training_directory(...)`.
`remove_training_directory` wraps `gfile.DeleteRecursively` in a bare
`try/except` that logs any failure and continues. -/

structure DeleteOutcome where
  /-- the directory was actually removed -/
  deleted : Bool
  /-- `logging.error` ran in the `except` branch -/
  logged_error : Bool
  /-- an exception escaped `remove_training_directory` -/
  propagated : Bool
deriving DecidableEq, Repr

/-- Source lines 472-483: try `DeleteRecursively`; on any failure log and
swallow the exception.  `delete_succeeds` abstracts whether the
filesystem deletion itself succeeds. -/
def remove_training_directory (delete_succeeds : Bool) : DeleteOutcome :=
  if delete_succeeds then
    { deleted := true, logged_error := false, propagated := false }
  else
    { deleted := false, logged_error := true, propagated := false }

structure PreludeResult where
  removed_dir : Bool
  delete_logged : Bool
  aborted : Bool
  meta : Option String
deriving DecidableEq, Repr

/-- Source lines 363-374: the part of `Trainer.run` before the graph is
built — conditional directory removal, then the recovery decision.  -/
def run_prelude (is_master start_new_model : Bool) (delete_succeeds : Bool)
    (latest_checkpoint : Option String) (file_exists : String → Bool) : PreludeResult :=
  if is_master && start_new_model then
    let d := remove_training_directory delete_succeeds
    { removed_dir := d.deleted, delete_logged := d.logged_error, aborted := d.propagated,
      meta := get_meta_filename start_new_model latest_checkpoint file_exists }
  else
    { removed_dir := false, delete_logged := false, aborted := false,
      meta := get_meta_filename start_new_model latest_checkpoint file_exists }

/-! ## Input pipeline (source lines 133-175)

`get_input_data_tensors` globs the data pattern, raises `IOError` when no
file matches, and otherwise builds the shuffled batch-join pipeline.
The glob call is abstracted by a function from patterns to file lists;
the returned record keeps the pipeline parameters the code passes to
`tf.train.shuffle_batch_join` (source lines 169-175). -/

structure InputPipeline where
  files : List String
  batch_size : Nat
  capacity : Nat
  min_after_dequeue : Nat
  allow_smaller_final_batch : Bool
deriving DecidableEq, Repr

/-- Source lines 156-175.  `flags_batch_size` is `FLAGS.batch_size`,
used for `capacity` and `min_after_dequeue`. -/
def get_input_data_tensors (glob : String → List String) (data_pattern : String)
    (batch_size : Nat) (flags_batch_size : Nat) : Except String InputPipeline :=
  let files := glob data_pattern
  if files.isEmpty then
    Except.error ("Unable to find training files. data_pattern='" ++ data_pattern ++ "'.")
  else
    Except.ok { files := files, batch_size := batch_size,
                capacity := flags_batch_size * 5,
                min_after_dequeue := flags_batch_size,
                allow_smaller_final_batch := true }

/-! ## Main dispatch (source lines 603-628)

`main` reads `TF_CONFIG`, builds the optional cluster spec and task, and
dispatches: Trainer when there is no cluster or the role is master or
worker; ParameterServer when the role is `ps`; otherwise `ValueError`. -/

structure ClusterSpec where
  jobs : List (String × List String)
deriving DecidableEq, Repr

inductive Dispatch where
  | trainer
  | parameterServer
  | invalidTaskType
deriving DecidableEq, Repr

/-- Source lines 621-628:
`if not cluster or task.type == "master" or task.type == "worker": Trainer(...)`
`elif task.type == "ps": ParameterServer(...)`
`else: raise ValueError(...)`. -/
def main_dispatch (cluster : Option ClusterSpec) (task_type : String) : Dispatch :=
  if cluster.isNone || task_type == "master" || task_type == "worker" then
    Dispatch.trainer
  else if task_type == "ps" then
    Dispatch.parameterServer
  else
    Dispatch.invalidTaskType

/-! ## Component lookup (source lines 105-131 and 178-181)

Python modules are modelled as attribute tables from names to classes; a
class carries its own name and the names of all its (transitive)
superclasses.  `getattr m name None` is an association-list lookup. -/

structure PyClass where
  name : String
  superclasses : List String
deriving DecidableEq, Repr

abbrev PyModule := List (String × PyClass)

/-- Python `getattr(module, name, None)`. -/
def pyGetattr (m : PyModule) (attr : String) : Option PyClass :=
  (m.find? (fun p => p.1 == attr)).map Prod.snd

/-- Python `issubclass(c, sup)` with classes identified by name. -/
def pyIssubclass (c : PyClass) (sup : String) : Bool :=
  c.name == sup || c.superclasses.contains sup

/-- The first non-`None` result of `[getattr(module, name, None) for module in modules]`
(`None` entries are skipped, as both loops below do). -/
def first_candidate (attr : String) (modules : List PyModule) : Option PyClass :=
  (modules.filterMap (fun m => pyGetattr m attr)).head?

inductive FindResult where
  /-- the first class found is returned, unchecked -/
  | found (c : PyClass)
  /-- `next` on an exhausted generator raises `StopIteration` -/
  | stopIteration
deriving DecidableEq, Repr

/-- Source lines 178-181: `find_class_by_name` — the lookup `build_model`
actually calls at startup.  It returns the first module attribute with the
given name and performs no superclass check. -/
def find_class_by_name (name : String) (modules : List PyModule) : FindResult :=
  match (modules.filterMap (fun m => pyGetattr m name)).head? with
  | some a => FindResult.found a
  | none => FindResult.stopIteration

inductive ValidateResult where
  /-- `return True` -/
  | ok
  /-- `FlagsError("%s '%s' doesn't inherit from %s.")` -/
  | flagsErrorNotInherit (category flag_value superclass : String)
  /-- `FlagsError("Unable to find %s '%s'.")` -/
  | flagsErrorNotFound (category flag_value : String)
deriving DecidableEq, Repr

/-- Source lines 105-131: `validate_class_name` — skips `None` candidates,
raises on the first candidate found when it does not inherit from the
expected superclass, returns `True` otherwise, and raises "Unable to find"
when every candidate is `None`.  (No caller in this file invokes it.) -/
def validate_class_name (flag_value category : String) (modules : List PyModule)
    (expected_superclass : String) : ValidateResult :=
  match (modules.filterMap (fun m => pyGetattr m flag_value)).head? with
  | none => ValidateResult.flagsErrorNotFound category flag_value
  | some candidate =>
    if !(pyIssubclass candidate expected_superclass) then
      ValidateResult.flagsErrorNotInherit category flag_value expected_superclass
    else
      ValidateResult.ok

/-! ## Label-loss selection in `build_graph` (source lines 279-294)

The model's `create_model` result is a dict with required key
`predictions` and optional keys; it is modelled as a record of `Option`
fields over an abstract tensor type.  The configured loss object
contributes `calculate_loss` and `calculate_loss_mix`. -/

structure ModelResult (α : Type) where
  predictions : α
  bottleneck : Option α
  predictions_class : Option α
  loss_sparse : Option α
  loss : Option α
  regularization_loss : Option α

/-- Source lines 279-294: the `predictions_class` default (lines 279-282)
followed by the three-way label-loss selection (lines 289-294).
`predictions` and `labels_batch` are the (possibly reshaped) tensors in
scope at line 289. -/
def graph_label_loss {α : Type} (calculate_loss : α → α → α)
    (calculate_loss_mix : α → α → α → α) (result : ModelResult α)
    (predictions labels_batch : α) : α :=
  let predictions_class :=
    match result.predictions_class with
    | some pc => pc
    | none => predictions
  match result.loss with
  | some l => l
  | none =>
    match result.predictions_class with
    | some _ => calculate_loss_mix predictions predictions_class labels_batch
    | none => calculate_loss predictions labels_batch

/-! ## Learning-rate schedule (source lines 240-247) -/

/-- Modelled from the spec: `tf.train.exponential_decay` with
`staircase=True` is external TensorFlow library code, not part of this
repository; per its documented contract the decayed rate is
`learning_rate0 * decay_rate ^ floor(global_step / decay_steps)`.
Only the staircase mode — the one `build_graph` selects — is modelled,
since the continuous mode needs a real-valued power.  Reals are modelled
as rationals. -/
def exponential_decay_staircase (learning_rate0 : ℚ) (global_step : ℚ)
    (decay_steps : ℚ) (decay_rate : ℚ) : ℚ :=
  learning_rate0 * decay_rate ^ ⌊global_step / decay_steps⌋

/-- Source lines 242-247: `build_graph` passes `global_step * batch_size`
as the decay argument and `learning_rate_decay_examples` as the interval,
with `staircase=True`. -/
def learning_rate (base_learning_rate : ℚ) (global_step batch_size : Nat)
    (learning_rate_decay_examples learning_rate_decay : ℚ) : ℚ :=
  exponential_decay_staircase base_learning_rate
    ((global_step : ℚ) * (batch_size : ℚ))
    learning_rate_decay_examples learning_rate_decay

/-! ## Forward-parameter extraction (source lines 183-201)

Trainable variables are (name, tensor) pairs; tensors are either rank-2
matrices (weights) or rank-1 vectors (biases), with rational entries.
`tf.reshape(x, [1, n])` and `tf.concat((a, b), axis=0)` fail on shape
mismatch, so both are `Option`-valued. -/

inductive TensorValue where
  | mat (rows : List (List ℚ))
  | vec (entries : List ℚ)
deriving DecidableEq, Repr

def TensorValue.flatten : TensorValue → List ℚ
  | .mat rows => rows.flatten
  | .vec v => v

structure TFVariable where
  name : String
  value : TensorValue
deriving DecidableEq, Repr

/-- `pat` is a prefix of some suffix of `s`. -/
def listContains (pat : List Char) : List Char → Bool
  | [] => pat.isEmpty
  | c :: rest => pat.isPrefixOf (c :: rest) || listContains pat rest

/-- Python's substring test `pat in s`. -/
def strContains (s pat : String) : Bool :=
  listContains pat.data s.data

/-- One of the eight list comprehensions of source lines 185-192:
`[var for var in t_vars if p1 in var.name and p2 in var.name]`. -/
def var_filter (t_vars : List TFVariable) (p1 p2 : String) : List TFVariable :=
  t_vars.filter (fun v => strContains v.name p1 && strContains v.name p2)

/-- `tf.reshape(x, [1, n])`: succeeds exactly when `x` has `n` elements,
yielding the 1×n matrix of them. -/
def tf_reshape_row (x : TensorValue) (n : Nat) : Option (List (List ℚ)) :=
  if x.flatten.length == n then some [x.flatten] else none

/-- The rank-2 requirement `tf.concat((w, b), axis=0)` puts on `w` when
`b` is a 1×n matrix. -/
def tensor_mat : TensorValue → Option (List (List ℚ))
  | .mat rows => some rows
  | .vec _ => none

/-- `tf.concat((a, b), axis=0)`: vertical concatenation, defined when all
rows share one width. -/
def tf_concat_axis0 (a b : List (List ℚ)) : Option (List (List ℚ)) :=
  match a ++ b with
  | [] => some []
  | r :: rs => if rs.all (fun s => s.length == r.length) then some (a ++ b) else none

/-- One `[weights; bias]` block of source lines 193-200: take element `[0]`
of the bias and weight filter results (`IndexError` on an empty list),
reshape the bias to `[1, n]`, and `tf.concat` the weight matrix on top of
it.  `none` models the Python exceptions. -/
def forward_block (weight_vars bias_vars : List TFVariable) (n : Nat) :
    Option (List (List ℚ)) :=
  match bias_vars.head? with
  | none => none
  | some b =>
    match weight_vars.head? with
    | none => none
    | some w =>
      match tf_reshape_row b.value n, tensor_mat w.value with
      | some b_rows, some w_rows => tf_concat_axis0 w_rows b_rows
      | _, _ => none

/-- Source lines 183-201: `get_forward_parameters`.  Failure (`none`)
models the Python exceptions: `IndexError` from `[0]` on an empty filter
result, and the TensorFlow shape errors of `reshape`/`concat` — any of
them aborts the call, so grouping the pure steps per block preserves the
result.  `hidden_size_1`/`hidden_size_2` are `FLAGS.hidden_size_1`/`_2`
(defined by the model module); `vocab_size` is the parameter of line 183. -/
def get_forward_parameters (hidden_size_1 hidden_size_2 vocab_size : Nat)
    (t_vars : List TFVariable) : Option (List (List (List ℚ))) :=
  match forward_block (var_filter t_vars "hidden_1" "weights")
          (var_filter t_vars "hidden_1" "biases") hidden_size_1,
        forward_block (var_filter t_vars "hidden_2" "weights")
          (var_filter t_vars "hidden_2" "biases") hidden_size_2,
        forward_block (var_filter t_vars "output_1" "weights")
          (var_filter t_vars "output_1" "biases") hidden_size_1,
        forward_block (var_filter t_vars "output_2" "weights")
          (var_filter t_vars "output_2" "biases") vocab_size with
  | some vars_1, some vars_2, some vars_3, some vars_4 =>
    some [vars_1, vars_2, vars_3, vars_4]
  | _, _, _, _ => none

/-! ## Graph collections and the training loop (source lines 329-338 and 406-453)

`tf.add_to_collection(key, value)` appends `value` to the list stored
under `key`; a value is either a single tensor or a Python list of
tensors added as one entry (line 338 adds the whole `parameters` list as
one entry).  `Trainer.run` later fetches `tf.get_collection("parameters")`
— the list of entries, not the inner tensor list. -/

inductive CollEntry where
  | tensor (handle : String)
  | tensorList (handles : List String)
deriving DecidableEq, Repr

/-- Source lines 329-338: the ten `tf.add_to_collection` calls of
`build_graph`, in order. -/
def build_graph_collections : List (String × CollEntry) :=
  [("global_step", CollEntry.tensor "global_step"),
   ("loss", CollEntry.tensor "final_loss"),
   ("reg_loss", CollEntry.tensor "reg_loss"),
   ("bottleneck", CollEntry.tensor "bottle_neck"),
   ("predictions", CollEntry.tensor "predictions"),
   ("input_batch_raw", CollEntry.tensor "model_input_raw"),
   ("num_frames", CollEntry.tensor "num_frames"),
   ("labels", CollEntry.tensor "labels_float"),
   ("train_op", CollEntry.tensor "train_op"),
   ("parameters", CollEntry.tensorList ["vars_1", "vars_2", "vars_3", "vars_4"])]

/-- `tf.get_collection(key)`: every entry added under `key`, in order. -/
def get_collection (cs : List (String × CollEntry)) (key : String) : List CollEntry :=
  (cs.filter (fun p => p.1 == key)).map Prod.snd

/-- One `sess.run([train_op, ...])` call either returns (`ok`) or raises
`tf.errors.OutOfRangeError` because the input pipeline is exhausted. -/
inductive StepOutcome where
  | ok
  | outOfRange
deriving DecidableEq, Repr

structure RunResult where
  /-- an exception escaped `Trainer.run`'s try/except -/
  raised : Bool
  /-- the files `np.savetxt` wrote, in order (line 446) -/
  files_written : List String
deriving DecidableEq, Repr

/-- Source line 446: `FLAGS.train_dir + 'autoencoder_layer%d.model' % i`
for `i in range(params_len)`. -/
def savetxt_files (train_dir : String) (params_len : Nat) : List String :=
  (List.range params_len).map
    (fun i => train_dir ++ "autoencoder_layer" ++ toString i ++ ".model")

/-- Source lines 408-450: the body of `Trainer.run`'s managed session.
`while not sv.should_stop(): sess.run(...)` — when `sess.run` raises
`OutOfRangeError` control jumps to the `except` handler (line 448),
skipping the parameter export of lines 444-446; the export runs only when
the loop exits because `should_stop()` turned true, and then writes
`len(sess.run(tf.get_collection("parameters")))` files.  `should_stop n`
and `step n` give the supervisor flag and the `sess.run` outcome at loop
iteration `n`; `fuel` bounds the modelled iterations (`none` = the loop
is still running after `fuel` iterations). -/
def training_loop (train_dir : String) (should_stop : Nat → Bool)
    (step : Nat → StepOutcome) : Nat → Option RunResult
  | 0 => none
  | fuel + 1 =>
    if should_stop 0 then
      some { raised := false,
             files_written :=
               savetxt_files train_dir
                 (get_collection build_graph_collections "parameters").length }
    else
      match step 0 with
      | StepOutcome.outOfRange => some { raised := false, files_written := [] }
      | StepOutcome.ok =>
        training_loop train_dir (fun n => should_stop (n + 1)) (fun n => step (n + 1)) fuel

/-! ## Concrete inputs used by witnesses and counterexamples -/

/-- A class from a capability family other than the one required. -/
def wrongFamilyClass : PyClass :=
  { name := "WrongFamily", superclasses := ["SomeOtherBase", "object"] }

def demo_h1w : TFVariable :=
  { name := "model/hidden_1/weights", value := TensorValue.mat [[1, 2], [3, 4]] }

def demo_h1b : TFVariable :=
  { name := "model/hidden_1/biases", value := TensorValue.vec [5, 6] }

def demo_h2w : TFVariable :=
  { name := "model/hidden_2/weights", value := TensorValue.mat [[7], [8]] }

def demo_h2b : TFVariable :=
  { name := "model/hidden_2/biases", value := TensorValue.vec [9] }

def demo_o1w : TFVariable :=
  { name := "model/output_1/weights", value := TensorValue.mat [[10, 11]] }

def demo_o1b : TFVariable :=
  { name := "model/output_1/biases", value := TensorValue.vec [12, 13] }

def demo_o2w : TFVariable :=
  { name := "model/output_2/weights", value := TensorValue.mat [[14]] }

def demo_o2b : TFVariable :=
  { name := "model/output_2/biases", value := TensorValue.vec [15] }

/-- A trainable-variable set with exactly one weight and one bias variable
for each of the four named layers (`hidden_size_1 = 2`, `hidden_size_2 = 1`,
`vocab_size = 1`). -/
def demo_vars : List TFVariable :=
  [demo_h1w, demo_h1b, demo_h2w, demo_h2b, demo_o1w, demo_o1b, demo_o2w, demo_o2b]

/-! ## Helper lemmas -/

lemma tf_concat_axis0_uniform (a : List (List ℚ)) (row : List ℚ) (n : Nat)
    (ha : ∀ r ∈ a, r.length = n) (hrow : row.length = n) :
    tf_concat_axis0 a [row] = some (a ++ [row]) := by
  unfold tf_concat_axis0
  cases a with
  | nil => simp
  | cons r rs =>
    have hr : r.length = n := ha r (List.mem_cons_self r rs)
    have hall : ((rs ++ [row]).all (fun s => s.length == r.length)) = true := by
      rw [List.all_eq_true]
      intro s hs
      simp only [beq_iff_eq]
      rcases List.mem_append.mp hs with h | h
      · rw [ha s (List.mem_cons_of_mem r h), hr]
      · rw [List.mem_singleton.mp h, hrow, hr]
    simp [hall]

lemma forward_block_some (weight_vars bias_vars : List TFVariable) (n : Nat)
    (w b : TFVariable) (w_rows : List (List ℚ))
    (hw : weight_vars.head? = some w) (hb : bias_vars.head? = some b)
    (hwm : tensor_mat w.value = some w_rows)
    (hbl : (TensorValue.flatten b.value).length = n)
    (hww : ∀ r ∈ w_rows, r.length = n) :
    forward_block weight_vars bias_vars n =
      some (w_rows ++ [TensorValue.flatten b.value]) := by
  have hre : tf_reshape_row b.value n = some [TensorValue.flatten b.value] := by
    unfold tf_reshape_row
    simp [hbl]
  unfold forward_block
  simp only [hb, hw, hre, hwm]
  exact tf_concat_axis0_uniform w_rows (TensorValue.flatten b.value) n hww hbl

lemma forward_block_no_bias (weight_vars bias_vars : List TFVariable) (n : Nat)
    (h : bias_vars = []) : forward_block weight_vars bias_vars n = none := by
  subst h
  rfl

lemma forward_block_no_weight (weight_vars bias_vars : List TFVariable) (n : Nat)
    (h : weight_vars = []) : forward_block weight_vars bias_vars n = none := by
  subst h
  unfold forward_block
  cases bias_vars.head? <;> rfl

lemma get_forward_parameters_none (hidden_size_1 hidden_size_2 vocab_size : Nat)
    (t_vars : List TFVariable)
    (h : forward_block (var_filter t_vars "hidden_1" "weights")
           (var_filter t_vars "hidden_1" "biases") hidden_size_1 = none ∨
         forward_block (var_filter t_vars "hidden_2" "weights")
           (var_filter t_vars "hidden_2" "biases") hidden_size_2 = none ∨
         forward_block (var_filter t_vars "output_1" "weights")
           (var_filter t_vars "output_1" "biases") hidden_size_1 = none ∨
         forward_block (var_filter t_vars "output_2" "weights")
           (var_filter t_vars "output_2" "biases") vocab_size = none) :
    get_forward_parameters hidden_size_1 hidden_size_2 vocab_size t_vars = none := by
  unfold get_forward_parameters
  rcases hB1 : forward_block (var_filter t_vars "hidden_1" "weights")
      (var_filter t_vars "hidden_1" "biases") hidden_size_1 with _ | m1 <;>
    rcases hB2 : forward_block (var_filter t_vars "hidden_2" "weights")
        (var_filter t_vars "hidden_2" "biases") hidden_size_2 with _ | m2 <;>
      rcases hB3 : forward_block (var_filter t_vars "output_1" "weights")
          (var_filter t_vars "output_1" "biases") hidden_size_1 with _ | m3 <;>
        rcases hB4 : forward_block (var_filter t_vars "output_2" "weights")
            (var_filter t_vars "output_2" "biases") vocab_size with _ | m4 <;>
          simp_all

/-! ## Claim theorems -/

/-- C1: the claim says constructing a Trainer for a task with role
"master" and a strictly positive index raises an initialization error.
In the code the guard `self.is_master and self.task.index > 0` is
unsatisfiable, because `is_master` already requires `index == 0`: no task
whatsoever — in particular not `{type: "master", index: 1}` — makes
`Trainer.__init__` raise, contradicting the claim (and the code's own
"Only one replica of master expected" error message). -/
theorem C1_trainer_init_never_raises :
    trainer_init_raises { type := "master", index := 1 } = false ∧
    ∀ task : TaskSpec, trainer_init_raises task = false := by
  constructor
  · rfl
  · intro task
    unfold trainer_init_raises trainer_is_master
    rcases eq_or_ne task.index 0 with h | h
    · simp [h]
    · simp [h]

/-- C2: the claim says a run whose loop ends on dataset exhaustion
completes without error and writes the four files
`autoencoder_layer0.model` … `autoencoder_layer3.model`.  In the code the
`np.savetxt` export sits inside the `try` block after the loop, so when
`sess.run` raises `OutOfRangeError` (dataset exhausted, first conjunct)
control jumps straight to the `except` handler: the run completes without
error but writes no file at all.  Even on the supervisor-stop exit path
(second conjunct) only one file is written, because
`tf.get_collection("parameters")` holds the four tensors as a single
entry, so `len(params) == 1`. -/
theorem C2_exhaustion_skips_parameter_export :
    training_loop "/tmp/yt8m_model/" (fun _ => false) (fun _ => StepOutcome.outOfRange) 1 =
      some { raised := false, files_written := [] } ∧
    training_loop "/tmp/yt8m_model/" (fun _ => true) (fun _ => StepOutcome.ok) 1 =
      some { raised := false,
             files_written := ["/tmp/yt8m_model/autoencoder_layer0.model"] } := by
  constructor
  · rfl
  · rfl

/-- C4 counterexample: the claim says every FRESH run on the sole master
deletes the pre-existing training directory.  Here the run is FRESH
because no checkpoint exists (`meta = none`) while `start_new_model` is
false, and on the sole master the directory is not removed. -/
theorem C4_fresh_without_flag_keeps_directory :
    (run_prelude true false true none (fun _ => false)).meta = none ∧
    (run_prelude true false true none (fun _ => false)).removed_dir = false := by
  constructor
  · rfl
  · rfl

/-- C4 (amended): the training directory is removed exactly when the
task is the sole master AND the fresh-start flag `start_new_model` is set
(and the filesystem deletion succeeds); a deletion failure is logged; and
no combination ever aborts the run. -/
theorem C4_deletion_iff_fresh_flag_on_master (is_master start_new_model delete_succeeds : Bool)
    (latest_checkpoint : Option String) (file_exists : String → Bool) :
    (run_prelude is_master start_new_model delete_succeeds latest_checkpoint
        file_exists).removed_dir = (is_master && start_new_model && delete_succeeds) ∧
    (run_prelude is_master start_new_model delete_succeeds latest_checkpoint
        file_exists).delete_logged = (is_master && start_new_model && !delete_succeeds) ∧
    (run_prelude is_master start_new_model delete_succeeds latest_checkpoint
        file_exists).aborted = false := by
  cases is_master <;> cases start_new_model <;> cases delete_succeeds <;>
    simp [run_prelude, remove_training_directory]

/-- C5: the input-pipeline constructor raises an `IOError` whose message
names the pattern exactly when the glob matches zero files, before any
batch tensor is produced; with at least one matching file no such error
is raised. -/
theorem C5_empty_glob_raises (glob : String → List String) (data_pattern : String)
    (batch_size flags_batch_size : Nat) :
    (glob data_pattern = [] →
      get_input_data_tensors glob data_pattern batch_size flags_batch_size =
        Except.error
          ("Unable to find training files. data_pattern='" ++ data_pattern ++ "'.")) ∧
    (glob data_pattern ≠ [] →
      ∃ t, get_input_data_tensors glob data_pattern batch_size flags_batch_size =
        Except.ok t) := by
  constructor
  · intro h
    unfold get_input_data_tensors
    rw [h]
    rfl
  · intro h
    unfold get_input_data_tensors
    cases hg : glob data_pattern with
    | nil => exact absurd hg h
    | cons a as => exact ⟨_, rfl⟩

/-- C5 witness: with a glob matching no file the constructor returns the
`IOError` naming the pattern; with one matching file it succeeds. -/
theorem C5_empty_glob_raises_witness :
    get_input_data_tensors (fun _ => []) "gs://data/train*.tfrecord" 1024 1024 =
      Except.error
        ("Unable to find training files. data_pattern='gs://data/train*.tfrecord'.") ∧
    ∃ t, get_input_data_tensors (fun _ => ["train-0.tfrecord"])
        "gs://data/train*.tfrecord" 1024 1024 = Except.ok t := by
  constructor
  · exact (C5_empty_glob_raises (fun _ => []) "gs://data/train*.tfrecord" 1024 1024).1 rfl
  · exact (C5_empty_glob_raises (fun _ => ["train-0.tfrecord"])
      "gs://data/train*.tfrecord" 1024 1024).2 (by simp)

/-- C6: the startup recovery decision is FRESH (`none`) exactly when the
fresh-start flag is set, or no latest checkpoint exists, or the
checkpoint's `.meta` graph-snapshot file is absent; otherwise it is
RECOVER (`some m`) with `m` derived from the latest checkpoint by
appending ".meta". -/
theorem C6_recovery_decision (start_new_model : Bool) (latest_checkpoint : Option String)
    (file_exists : String → Bool) :
    (get_meta_filename start_new_model latest_checkpoint file_exists = none ↔
      (start_new_model = true ∨ latest_checkpoint = none ∨
        ∃ ckpt, latest_checkpoint = some ckpt ∧ file_exists (ckpt ++ ".meta") = false)) ∧
    (∀ m, get_meta_filename start_new_model latest_checkpoint file_exists = some m →
      start_new_model = false ∧
      ∃ ckpt, latest_checkpoint = some ckpt ∧ m = ckpt ++ ".meta" ∧
        file_exists (ckpt ++ ".meta") = true) := by
  cases start_new_model with
  | true => simp [get_meta_filename]
  | false =>
    cases latest_checkpoint with
    | none => simp [get_meta_filename]
    | some c =>
      cases he : file_exists (c ++ ".meta") <;>
        simp [get_meta_filename, he]

/-- C6 witness: with a checkpoint `model.ckpt-100` whose `.meta` file
exists, the decision is RECOVER from `model.ckpt-100.meta`. -/
theorem C6_recovery_decision_witness :
    false = false ∧
    ∃ ckpt, (some "model.ckpt-100" : Option String) = some ckpt ∧
      "model.ckpt-100.meta" = ckpt ++ ".meta" ∧
      (fun _ : String => true) (ckpt ++ ".meta") = true :=
  (C6_recovery_decision false (some "model.ckpt-100") (fun _ => true)).2
    "model.ckpt-100.meta" rfl

/-- C10: with no cluster spec the main dispatch always runs the Trainer,
whatever the task's role (including "ps"); the invalid-task-type error is
raised exactly when a cluster spec is present and the role is none of
"master", "worker", "ps". -/
theorem C10_dispatch (cluster : Option ClusterSpec) (task_type : String) :
    (cluster = none → main_dispatch cluster task_type = Dispatch.trainer) ∧
    (main_dispatch cluster task_type = Dispatch.invalidTaskType ↔
      cluster ≠ none ∧ task_type ≠ "master" ∧ task_type ≠ "worker" ∧ task_type ≠ "ps") := by
  constructor
  · intro h
    subst h
    rfl
  · cases cluster <;>
      by_cases h1 : task_type = "master" <;>
        by_cases h2 : task_type = "worker" <;>
          by_cases h3 : task_type = "ps" <;>
            simp [main_dispatch, h1, h2, h3]

/-- C10 witness: a "ps" task with no cluster spec is dispatched to the
Trainer, not to the ParameterServer. -/
theorem C10_dispatch_witness : main_dispatch none "ps" = Dispatch.trainer :=
  (C10_dispatch none "ps").1 rfl

/-- C3 counterexample: the claim says the component lookup used at
startup fails with a configuration error when the first module defining
the name binds it to a class outside the required family.  The lookup
`build_model` actually calls is `find_class_by_name`, and on a module
whose first (and only) binding for "MoeModel" is a class that does not
inherit from "BaseModel" it returns that class without any error. -/
theorem C3_startup_lookup_returns_nonconforming_class :
    find_class_by_name "MoeModel" [[("MoeModel", wrongFamilyClass)]] =
      FindResult.found wrongFamilyClass ∧
    pyIssubclass wrongFamilyClass "BaseModel" = false := by
  constructor
  · rfl
  · rfl

/-- C3 (amended): `validate_class_name` implements the described checks —
a configuration error naming the capability and the required family when
the first candidate does not inherit from it, a not-found error naming
the capability when no module defines the name — but the lookup actually
used at startup, `find_class_by_name`, returns the first binding without
any conformance check and raises a bare `StopIteration` when the name is
absent from every module. -/
theorem C3_validate_checks_but_startup_lookup_does_not
    (flag_value category expected_superclass : String) (modules : List PyModule) :
    (first_candidate flag_value modules = none →
      validate_class_name flag_value category modules expected_superclass =
        ValidateResult.flagsErrorNotFound category flag_value ∧
      find_class_by_name flag_value modules = FindResult.stopIteration) ∧
    (∀ c, first_candidate flag_value modules = some c →
      find_class_by_name flag_value modules = FindResult.found c ∧
      (pyIssubclass c expected_superclass = false →
        validate_class_name flag_value category modules expected_superclass =
          ValidateResult.flagsErrorNotInherit category flag_value expected_superclass) ∧
      (pyIssubclass c expected_superclass = true →
        validate_class_name flag_value category modules expected_superclass =
          ValidateResult.ok)) := by
  constructor
  · intro h
    simp only [first_candidate] at h
    constructor
    · simp [validate_class_name, h]
    · simp [find_class_by_name, h]
  · intro c hc
    simp only [first_candidate] at hc
    refine ⟨?_, ?_, ?_⟩
    · simp [find_class_by_name, hc]
    · intro hs
      simp [validate_class_name, hc, hs]
    · intro hs
      simp [validate_class_name, hc, hs]

/-- C3 witness: on a module binding "MoeModel" to a class outside the
"BaseModel" family, `validate_class_name` raises the inheritance
configuration error while `find_class_by_name` returns the class; on an
empty module list, `validate_class_name` raises the not-found error while
`find_class_by_name` raises `StopIteration`. -/
theorem C3_validate_checks_but_startup_lookup_does_not_witness :
    find_class_by_name "MoeModel" [[("MoeModel", wrongFamilyClass)]] =
      FindResult.found wrongFamilyClass ∧
    validate_class_name "MoeModel" "model" [[("MoeModel", wrongFamilyClass)]] "BaseModel" =
      ValidateResult.flagsErrorNotInherit "model" "MoeModel" "BaseModel" ∧
    validate_class_name "MoeModel" "loss" [] "BaseLoss" =
      ValidateResult.flagsErrorNotFound "loss" "MoeModel" ∧
    find_class_by_name "MoeModel" [] = FindResult.stopIteration := by
  have h1 := (C3_validate_checks_but_startup_lookup_does_not "MoeModel" "model"
    "BaseModel" [[("MoeModel", wrongFamilyClass)]]).2 wrongFamilyClass (by decide)
  have h2 := (C3_validate_checks_but_startup_lookup_does_not "MoeModel" "loss"
    "BaseLoss" []).1 (by decide)
  exact ⟨h1.1, h1.2.1 (by decide), h2.1, h2.2⟩

/-- C7: the label loss used by graph construction is the model-provided
`loss` when that key is present; otherwise, when `predictions_class` is
present, the mixed loss of predictions and predictions_class against the
labels; otherwise the configured loss of predictions against labels. -/
theorem C7_label_loss_selection {α : Type} (calculate_loss : α → α → α)
    (calculate_loss_mix : α → α → α → α) (result : ModelResult α)
    (predictions labels_batch : α) :
    (∀ l, result.loss = some l →
      graph_label_loss calculate_loss calculate_loss_mix result predictions labels_batch
        = l) ∧
    (∀ pc, result.loss = none → result.predictions_class = some pc →
      graph_label_loss calculate_loss calculate_loss_mix result predictions labels_batch
        = calculate_loss_mix predictions pc labels_batch) ∧
    (result.loss = none → result.predictions_class = none →
      graph_label_loss calculate_loss calculate_loss_mix result predictions labels_batch
        = calculate_loss predictions labels_batch) := by
  refine ⟨?_, ?_, ?_⟩
  · intro l hl
    simp [graph_label_loss, hl]
  · intro pc hl hpc
    simp [graph_label_loss, hl, hpc]
  · intro hl hpc
    simp [graph_label_loss, hl, hpc]

/-- C7 witness: a result bundle with no `loss` key and a
`predictions_class` head selects the mixed loss. -/
theorem C7_label_loss_selection_witness :
    graph_label_loss (fun p l => p + l) (fun p pc l => p * 100 + pc * 10 + l)
      { predictions := 1, bottleneck := none, predictions_class := some 2,
        loss_sparse := none, loss := none, regularization_loss := none }
      (1 : Nat) 5 = 125 :=
  (C7_label_loss_selection (fun p l => p + l) (fun p pc l => p * 100 + pc * 10 + l)
    { predictions := 1, bottleneck := none, predictions_class := some 2,
      loss_sparse := none, loss := none, regularization_loss := none } 1 5).2.1 2 rfl rfl

/-- C8: the learning rate at step `s` is
`base_rate * decay_factor ^ floor(s * batch_size / decay_interval)`:
stated for an arbitrary rational decay interval (first conjunct, with the
integer floor as exponent) and for a natural decay interval (second
conjunct, where the exponent is natural-number division — the exact
staircase of the claim, constant between interval boundaries). -/
theorem C8_learning_rate_staircase (base_learning_rate learning_rate_decay q : ℚ)
    (global_step batch_size n : Nat) :
    learning_rate base_learning_rate global_step batch_size q learning_rate_decay =
      base_learning_rate *
        learning_rate_decay ^ ⌊((global_step * batch_size : Nat) : ℚ) / q⌋ ∧
    learning_rate base_learning_rate global_step batch_size (n : ℚ) learning_rate_decay =
      base_learning_rate * learning_rate_decay ^ (global_step * batch_size / n) := by
  have h0 : ((global_step : ℚ) * (batch_size : ℚ))
      = ((global_step * batch_size : Nat) : ℚ) := by
    push_cast
    ring
  constructor
  · unfold learning_rate exponential_decay_staircase
    rw [h0]
  · unfold learning_rate exponential_decay_staircase
    rw [h0]
    have h1 : ⌊((global_step * batch_size : Nat) : ℚ) / ((n : Nat) : ℚ)⌋ =
        (((global_step * batch_size) / n : Nat) : ℤ) := by
      rw [← Int.natCast_floor_eq_floor (by positivity), Nat.floor_div_eq_div]
    rw [h1, zpow_natCast]

/-- C9: forward-parameter extraction returns `none` (the Python call
fails) whenever any of the eight name-pattern groups — "hidden_1",
"hidden_2", "output_1", "output_2" crossed with "weights"/"biases" — has
zero matching trainable variables; and when every group has a match (and
the shapes are coherent) it returns exactly four matrices, each the
first matching weight matrix with the first matching bias appended as a
final row. -/
theorem C9_forward_parameter_extraction (hidden_size_1 hidden_size_2 vocab_size : Nat)
    (t_vars : List TFVariable) :
    ((var_filter t_vars "hidden_1" "weights" = [] ∨
      var_filter t_vars "hidden_1" "biases" = [] ∨
      var_filter t_vars "hidden_2" "weights" = [] ∨
      var_filter t_vars "hidden_2" "biases" = [] ∨
      var_filter t_vars "output_1" "weights" = [] ∨
      var_filter t_vars "output_1" "biases" = [] ∨
      var_filter t_vars "output_2" "weights" = [] ∨
      var_filter t_vars "output_2" "biases" = []) →
      get_forward_parameters hidden_size_1 hidden_size_2 vocab_size t_vars = none) ∧
    (∀ w1 b1 w2 b2 w3 b3 w4 b4 w1_rows w2_rows w3_rows w4_rows,
      (var_filter t_vars "hidden_1" "weights").head? = some w1 →
      (var_filter t_vars "hidden_1" "biases").head? = some b1 →
      (var_filter t_vars "hidden_2" "weights").head? = some w2 →
      (var_filter t_vars "hidden_2" "biases").head? = some b2 →
      (var_filter t_vars "output_1" "weights").head? = some w3 →
      (var_filter t_vars "output_1" "biases").head? = some b3 →
      (var_filter t_vars "output_2" "weights").head? = some w4 →
      (var_filter t_vars "output_2" "biases").head? = some b4 →
      tensor_mat w1.value = some w1_rows →
      tensor_mat w2.value = some w2_rows →
      tensor_mat w3.value = some w3_rows →
      tensor_mat w4.value = some w4_rows →
      (∀ r ∈ w1_rows, r.length = hidden_size_1) →
      (TensorValue.flatten b1.value).length = hidden_size_1 →
      (∀ r ∈ w2_rows, r.length = hidden_size_2) →
      (TensorValue.flatten b2.value).length = hidden_size_2 →
      (∀ r ∈ w3_rows, r.length = hidden_size_1) →
      (TensorValue.flatten b3.value).length = hidden_size_1 →
      (∀ r ∈ w4_rows, r.length = vocab_size) →
      (TensorValue.flatten b4.value).length = vocab_size →
      get_forward_parameters hidden_size_1 hidden_size_2 vocab_size t_vars =
        some [w1_rows ++ [TensorValue.flatten b1.value],
              w2_rows ++ [TensorValue.flatten b2.value],
              w3_rows ++ [TensorValue.flatten b3.value],
              w4_rows ++ [TensorValue.flatten b4.value]]) := by
  constructor
  · intro h
    apply get_forward_parameters_none
    rcases h with h | h | h | h | h | h | h | h
    · exact Or.inl (forward_block_no_weight _ _ _ h)
    · exact Or.inl (forward_block_no_bias _ _ _ h)
    · exact Or.inr (Or.inl (forward_block_no_weight _ _ _ h))
    · exact Or.inr (Or.inl (forward_block_no_bias _ _ _ h))
    · exact Or.inr (Or.inr (Or.inl (forward_block_no_weight _ _ _ h)))
    · exact Or.inr (Or.inr (Or.inl (forward_block_no_bias _ _ _ h)))
    · exact Or.inr (Or.inr (Or.inr (forward_block_no_weight _ _ _ h)))
    · exact Or.inr (Or.inr (Or.inr (forward_block_no_bias _ _ _ h)))
  · intro w1 b1 w2 b2 w3 b3 w4 b4 w1_rows w2_rows w3_rows w4_rows
      hw1 hb1 hw2 hb2 hw3 hb3 hw4 hb4 hm1 hm2 hm3 hm4 hr1 hl1 hr2 hl2 hr3 hl3 hr4 hl4
    have e1 := forward_block_some _ _ hidden_size_1 w1 b1 w1_rows hw1 hb1 hm1 hl1 hr1
    have e2 := forward_block_some _ _ hidden_size_2 w2 b2 w2_rows hw2 hb2 hm2 hl2 hr2
    have e3 := forward_block_some _ _ hidden_size_1 w3 b3 w3_rows hw3 hb3 hm3 hl3 hr3
    have e4 := forward_block_some _ _ vocab_size w4 b4 w4_rows hw4 hb4 hm4 hl4 hr4
    unfold get_forward_parameters
    rw [e1, e2, e3, e4]

/-- C9 witness: on a variable set with one weight and one bias per named
layer, extraction succeeds with the four `[weights; bias]` matrices. -/
theorem C9_forward_parameter_extraction_witness :
    get_forward_parameters 2 1 1 demo_vars =
      some [[[1, 2], [3, 4], [5, 6]],
            [[7], [8], [9]],
            [[10, 11], [12, 13]],
            [[14], [15]]] :=
  (C9_forward_parameter_extraction 2 1 1 demo_vars).2
    demo_h1w demo_h1b demo_h2w demo_h2b demo_o1w demo_o1b demo_o2w demo_o2b
    [[1, 2], [3, 4]] [[7], [8]] [[10, 11]] [[14]]
    (by decide) (by decide) (by decide) (by decide) (by decide) (by decide)
    (by decide) (by decide) (by decide) (by decide) (by decide) (by decide)
    (by decide) (by decide) (by decide) (by decide) (by decide) (by decide)
    (by decide) (by decide)

end TrainAutoencoder
